import Mathlib

/-!
# Verification of `backend/evaluation/evaluate.py`

Shallow embedding of the evaluation-driver script of the
ai-brainstorm-platform repository, together with proofs of the spec's
claims about it.

The script has three parts:
* `get_model_config` — selects a hosted-model backend from environment
  variables (Azure OpenAI preferred, then OpenAI), with defaults;
* `prepare_data` — converts a JSON array of records into JSONL lines,
  default-filling the `query` / `response` / `context` fields with `""`;
* `main` — orchestrates: input-file check, config selection (with caught
  configuration errors), temp-file creation, conversion, external
  evaluation call, and guaranteed temp-file cleanup in a `finally` block.

JSON values are modelled by the inductive `Json` below; numbers are
modelled as integers (the script never produces or consumes fractional
numbers itself; floating point is out of scope). `json.dumps` is modelled
character-for-character for this fragment, using Python's default
separators `", "` / `": "` and minimal string escaping (`\"`, `\\`, the
control-character shorthands `\n` `\t` `\r` `\b` `\f`, and `\u00XX` for
the remaining control characters).
-/

namespace Evaluate

/-- JSON values, as produced by Python's `json.load`.  Objects are
association lists in document order (Python dicts parsed from JSON have
unique keys, insertion-ordered).  Numbers are modelled as integers. -/
inductive Json where
  | null : Json
  | bool (b : Bool) : Json
  | num (n : Int) : Json
  | str (s : String) : Json
  | arr (elems : List Json) : Json
  | obj (members : List (String × Json)) : Json

/-- Python's `item.get(key, default)` for a dict parsed from JSON,
as used by `prepare_data`.  Non-dict values have no `.get`; callers
handle that case separately. -/
def Json.getField (kvs : List (String × Json)) (key : String) (dflt : Json) : Json :=
  (kvs.lookup key).getD dflt

/-- The keys of a JSON object, in order. -/
def Json.keys : Json → List String
  | .obj kvs => kvs.map (·.1)
  | _ => []

/-- Decimal digit character (`0`–`9`).  Arguments come from `% 10`. -/
def digitChar (n : Nat) : Char :=
  match n with
  | 0 => '0' | 1 => '1' | 2 => '2' | 3 => '3' | 4 => '4'
  | 5 => '5' | 6 => '6' | 7 => '7' | 8 => '8' | _ => '9'

/-- Lowercase hexadecimal digit character, as in Python's `\uXXXX`
escapes.  Arguments come from `% 16`. -/
def hexChar (n : Nat) : Char :=
  match n with
  | 0 => '0' | 1 => '1' | 2 => '2' | 3 => '3' | 4 => '4'
  | 5 => '5' | 6 => '6' | 7 => '7' | 8 => '8' | 9 => '9'
  | 10 => 'a' | 11 => 'b' | 12 => 'c' | 13 => 'd' | 14 => 'e' | _ => 'f'

/-- Decimal digits of a natural number, most significant first
(Python's `repr` for a non-negative int). -/
def natDigits (n : Nat) : List Char :=
  if _h : n < 10 then [digitChar n]
  else natDigits (n / 10) ++ [digitChar (n % 10)]
  termination_by n
  decreasing_by exact Nat.div_lt_self (by omega) (by omega)

/-- Python's rendering of an int by `json.dumps`. -/
def intRepr (n : Int) : List Char :=
  if n < 0 then '-' :: natDigits n.natAbs else natDigits n.natAbs

/-- Escape one character of a JSON string, following
`json.dumps` (`ensure_ascii` aside: characters ≥ U+0020 other than `"`
and `\` pass through unchanged). -/
def escapeChar (c : Char) : List Char :=
  if c = '"' then ['\\', '"']
  else if c = '\\' then ['\\', '\\']
  else if c = '\n' then ['\\', 'n']
  else if c = '\t' then ['\\', 't']
  else if c = '\r' then ['\\', 'r']
  else if c = '\x08' then ['\\', 'b']
  else if c = '\x0c' then ['\\', 'f']
  else if c.toNat < 0x20 then
    ['\\', 'u', '0', '0', hexChar (c.toNat / 16), hexChar (c.toNat % 16)]
  else [c]

/-- Escape the body of a JSON string. -/
def escapeString (cs : List Char) : List Char := cs.flatMap escapeChar

/-- `json.dumps` of a string: quoted, escaped body. -/
def dumpString (s : String) : List Char := '"' :: escapeString s.data ++ ['"']

mutual

/-- `json.dumps(v)` with Python's default separators `", "` and `": "`. -/
def dumps : Json → List Char
  | .null => "null".data
  | .bool b => if b then "true".data else "false".data
  | .num n => intRepr n
  | .str s => dumpString s
  | .arr xs => '[' :: dumpsArr xs ++ [']']
  | .obj kvs => '{' :: dumpsObj kvs ++ ['}']

/-- Comma-separated rendering of array elements. -/
def dumpsArr : List Json → List Char
  | [] => []
  | [x] => dumps x
  | x :: y :: xs => dumps x ++ ',' :: ' ' :: dumpsArr (y :: xs)

/-- Comma-separated rendering of object members (`"key": value`). -/
def dumpsObj : List (String × Json) → List Char
  | [] => []
  | [(k, v)] => dumpString k ++ ':' :: ' ' :: dumps v
  | (k, v) :: m :: kvs =>
      dumpString k ++ ':' :: ' ' :: dumps v ++ ',' :: ' ' :: dumpsObj (m :: kvs)

end

/-- No newline character occurs in `cs` (i.e. `cs` is a single line). -/
abbrev noNL (cs : List Char) : Prop := ∀ c ∈ cs, c ≠ '\n'

/-- The members of a JSON object (`[]` for non-objects). -/
def objMembers : Json → List (String × Json)
  | .obj kvs => kvs
  | _ => []

/-! ## The format converter (`prepare_data`) -/

/-- The record built by `prepare_data` for one input element `kvs`
(a parsed JSON object): exactly the three keys `query`, `response`,
`context`, in that order, each defaulting to `""` when absent
(Python's `item.get(key, "")`). -/
def recordOf (kvs : List (String × Json)) : Json :=
  .obj [("query", Json.getField kvs "query" (.str "")),
        ("response", Json.getField kvs "response" (.str "")),
        ("context", Json.getField kvs "context" (.str ""))]

/-- The record emitted for one array element.  A non-object element has
no `.get` method in Python, so `prepare_data` raises there (`none`). -/
def makeRecord : Json → Option Json
  | .obj kvs => some (recordOf kvs)
  | _ => none

/-- The JSONL lines (without their trailing newlines) written by
`prepare_data` for a parsed input array `data`: one `json.dumps(record)`
per element, in input order.  `none` models the uncaught exception on a
non-object element. -/
def recordLines (data : List Json) : Option (List (List Char)) :=
  (data.mapM makeRecord).map (List.map dumps)

/-- The full contents of the output file written by `prepare_data`:
each record serialized on its own line, `'\n'`-terminated
(`f.write(json.dumps(record) + '\n')`). -/
def prepare_data (data : List Json) : Option (List Char) :=
  (recordLines data).map (fun lines => (lines.map (· ++ ['\n'])).flatten)

/-! ## A JSON parser for the emitted lines

Each line written by `prepare_data` is a flat JSON object whose values
are strings (§6 of the spec: the dataset's optional fields are strings).
The parser below parses exactly that JSON fragment — objects of
string-valued members, with JSON string escapes — and is used to state
the round-trip property. -/

/-- Value of a hexadecimal digit character (`0`–`9`, `a`–`f`, `A`–`F`). -/
def fromHex (c : Char) : Option Nat :=
  if '0' ≤ c ∧ c ≤ '9' then some (c.toNat - 48)
  else if 'a' ≤ c ∧ c ≤ 'f' then some (c.toNat - 87)
  else if 'A' ≤ c ∧ c ≤ 'F' then some (c.toNat - 55)
  else none

/-- Skip JSON whitespace (the emitted lines only ever contain spaces). -/
def skipSpaces : List Char → List Char
  | [] => []
  | c :: r => if c = ' ' then skipSpaces r else c :: r

/-- Parse the body of a JSON string after its opening quote, resolving
escapes, up to and including the closing quote.  Returns the decoded
characters and the remaining input. -/
def parseStringBody : List Char → Option (List Char × List Char)
  | [] => none
  | c :: r =>
    if c = '"' then some ([], r)
    else if c = '\\' then
      match r with
      | [] => none
      | e :: r2 =>
        if e = '"' then (parseStringBody r2).map (fun p => ('"' :: p.1, p.2))
        else if e = '\\' then (parseStringBody r2).map (fun p => ('\\' :: p.1, p.2))
        else if e = '/' then (parseStringBody r2).map (fun p => ('/' :: p.1, p.2))
        else if e = 'n' then (parseStringBody r2).map (fun p => ('\n' :: p.1, p.2))
        else if e = 't' then (parseStringBody r2).map (fun p => ('\t' :: p.1, p.2))
        else if e = 'r' then (parseStringBody r2).map (fun p => ('\r' :: p.1, p.2))
        else if e = 'b' then (parseStringBody r2).map (fun p => ('\x08' :: p.1, p.2))
        else if e = 'f' then (parseStringBody r2).map (fun p => ('\x0c' :: p.1, p.2))
        else if e = 'u' then
          match r2 with
          | a :: b :: c2 :: d :: r3 =>
            match fromHex a, fromHex b, fromHex c2, fromHex d with
            | some ha, some hb, some hc, some hd =>
                if ((ha * 16 + hb) * 16 + hc) * 16 + hd < 0xd800 then
                  (parseStringBody r3).map
                    (fun p => (Char.ofNat (((ha * 16 + hb) * 16 + hc) * 16 + hd) :: p.1, p.2))
                else none
            | _, _, _, _ => none
          | _ => none
        else none
    else (parseStringBody r).map (fun p => (c :: p.1, p.2))

/-- Parse one `"key": "value"` member of a flat object. -/
def parseMember (cs : List Char) : Option ((List Char × List Char) × List Char) :=
  match skipSpaces cs with
  | [] => none
  | c :: r =>
    if c = '"' then
      match parseStringBody r with
      | none => none
      | some (k, r1) =>
        match skipSpaces r1 with
        | [] => none
        | c2 :: r2 =>
          if c2 = ':' then
            match skipSpaces r2 with
            | [] => none
            | c3 :: r3 =>
              if c3 = '"' then
                match parseStringBody r3 with
                | none => none
                | some (v, r4) => some ((k, v), r4)
              else none
          else none
    else none

/-- Parse a non-empty comma-separated member list, up to and including
the closing `}`.  `fuel` bounds the number of members. -/
def parseMembers (fuel : Nat) (cs : List Char) :
    Option (List (List Char × List Char) × List Char) :=
  match fuel with
  | 0 => none
  | fuel + 1 =>
    match parseMember cs with
    | none => none
    | some (kv, r) =>
      match skipSpaces r with
      | [] => none
      | c :: r1 =>
        if c = '}' then some ([kv], r1)
        else if c = ',' then
          match parseMembers fuel r1 with
          | some (kvs, r2) => some (kv :: kvs, r2)
          | none => none
        else none

/-- Parse one emitted line as a JSON object of string-valued members.
Returns the members in document order. -/
def parseLine (cs : List Char) : Option (List (String × String)) :=
  match skipSpaces cs with
  | [] => none
  | c :: r =>
    if c = '{' then
      match skipSpaces r with
      | [] => none
      | c2 :: r2 =>
        if c2 = '}' then if skipSpaces r2 = [] then some [] else none
        else
          match parseMembers (cs.length + 1) r with
          | some (kvs, r3) =>
            if skipSpaces r3 = [] then
              some (kvs.map (fun kv => (String.mk kv.1, String.mk kv.2)))
            else none
          | none => none
    else none

/-- The encoding of one `"key": "value"` member as emitted by the
serializer, followed by trailing input `t`. -/
def membEnc (k v t : List Char) : List Char :=
  '"' :: (escapeString k ++ '"' :: ':' :: ' ' :: '"' :: (escapeString v ++ '"' :: t))

/-- Well-formed input element, per §6 of the spec: a JSON object whose
`query` / `response` / `context` fields, where present, are strings. -/
def wfItem : Json → Bool
  | .obj kvs =>
      (["query", "response", "context"] : List String).all fun key =>
        match kvs.lookup key with
        | none => true
        | some (.str _) => true
        | some _ => false
  | _ => false

/-- The string content of a field of a well-formed element: the field's
string value, or `""` when the field is absent. -/
def strField (kvs : List (String × Json)) (key : String) : String :=
  match kvs.lookup key with
  | some (.str s) => s
  | _ => ""

/-! ## The configuration selector (`get_model_config`) -/

/-- The process environment: `os.environ.get` semantics
(`none` = variable not set). -/
def Env : Type := String → Option String

/-- Python truthiness of `os.environ.get(k)`: `None` and the empty
string are falsy, every other string is truthy. -/
def truthy : Option String → Bool
  | none => false
  | some s => !s.isEmpty

/-- The model configuration returned by `get_model_config`: either an
`AzureOpenAIModelConfiguration` (backend A) or an
`OpenAIModelConfiguration` (backend B).  The Azure `api_key` is optional
because `os.environ.get("AZURE_OPENAI_API_KEY")` may be `None`. -/
inductive ModelConfig where
  | azure (azure_endpoint : String) (azure_deployment : String)
          (api_key : Option String) (api_version : String) : ModelConfig
  | openai (model : String) (api_key : String) : ModelConfig

/-- The `ValueError` message raised when no backend is configured. -/
def noConfigMsg : String :=
  "No OpenAI or Azure OpenAI configuration found in environment variables."

/-- `get_model_config()`: prefers Azure OpenAI when
`AZURE_OPENAI_ENDPOINT` is truthy, then OpenAI when `OPENAI_API_KEY` is
truthy, else raises `ValueError` (modelled as `Except.error`). -/
def get_model_config (env : Env) : Except String ModelConfig :=
  if truthy (env "AZURE_OPENAI_ENDPOINT") then
    .ok (.azure ((env "AZURE_OPENAI_ENDPOINT").getD "")
                ((env "AZURE_OPENAI_DEPLOYMENT").getD "gpt-4")
                (env "AZURE_OPENAI_API_KEY")
                ((env "AZURE_OPENAI_API_VERSION").getD "2024-02-15-preview"))
  else if truthy (env "OPENAI_API_KEY") then
    .ok (.openai ((env "OPENAI_MODEL").getD "gpt-4")
                 ((env "OPENAI_API_KEY").getD ""))
  else
    .error noConfigMsg

/-! ## The evaluation driver (`main`)

`main`'s effects on the world outside the script — the existence of the
input file, and whether the conversion or the external `evaluate` call
raises — are inputs of the model; its observable behaviour (diagnostics
printed, files created, exception propagated) is its output. -/

/-- Behaviour of the world around one run of `main`. -/
structure ExtWorld where
  /-- Does `test_dataset.json` exist (`os.path.exists(INPUT_FILE)`)? -/
  inputFileExists : Bool
  /-- Does `prepare_data` raise (I/O error or `json.load` parse error)? -/
  prepareRaises : Bool
  /-- Does the external `evaluate(...)` call raise (auth, network, quota)? -/
  evalRaises : Bool

/-- Observable outcome of one run of `main`.  `printed` records the
diagnostic messages of the two handled failure modes; the progress
messages of a successful run (metrics block, studio URL, …) carry
dynamic external data and are not tracked. -/
structure MainResult where
  /-- Diagnostic lines printed by the handled failure paths. -/
  printed : List String
  /-- Result of `get_model_config`, or `none` if it was never called. -/
  configResult : Option (Except String ModelConfig)
  /-- Was the temporary JSONL file created (`tempfile.NamedTemporaryFile`)? -/
  tempCreated : Bool
  /-- Does the temporary file still exist when the run ends? -/
  tempExistsAtEnd : Bool
  /-- Was the results file `evaluation_results.json` written by `evaluate`? -/
  outputWritten : Bool
  /-- Did an exception propagate out of `main`? -/
  raised : Bool

/-- The diagnostic printed when the input file is missing. -/
def missingInputMsg : String :=
  "Error: Input file 'test_dataset.json' not found. Please run 'collect_responses.ts' first."

/-- The remediation hint printed when `get_model_config` raises. -/
def configHintMsg : String :=
  "Please set AZURE_OPENAI_ENDPOINT/AZURE_OPENAI_API_KEY or OPENAI_API_KEY in .env"

/-- `main()`: input-file check, config selection with caught
`ValueError`, evaluator construction, temp-file creation, then
`try: prepare_data; evaluate  finally: remove temp file if it exists`.
An exception from `prepare_data` or `evaluate` propagates (uncaught)
after the `finally` block removes the temporary file. -/
def main (env : Env) (w : ExtWorld) : MainResult :=
  if !w.inputFileExists then
    { printed := [missingInputMsg], configResult := none,
      tempCreated := false, tempExistsAtEnd := false,
      outputWritten := false, raised := false }
  else
    match get_model_config env with
    | .error e =>
      { printed := ["Error: " ++ e, configHintMsg],
        configResult := some (.error e),
        tempCreated := false, tempExistsAtEnd := false,
        outputWritten := false, raised := false }
    | .ok _cfg =>
      -- Evaluators are constructed, then the temp file is created.
      -- In every branch below the `finally` block removes the temp file.
      if w.prepareRaises then
        { printed := [], configResult := some (get_model_config env),
          tempCreated := true, tempExistsAtEnd := false,
          outputWritten := false, raised := true }
      else if w.evalRaises then
        { printed := [], configResult := some (get_model_config env),
          tempCreated := true, tempExistsAtEnd := false,
          outputWritten := false, raised := true }
      else
        { printed := [], configResult := some (get_model_config env),
          tempCreated := true, tempExistsAtEnd := false,
          outputWritten := true, raised := false }

/-! ## Helper lemmas: the serialized record is a single line -/

theorem noNL_append {a b : List Char} : noNL (a ++ b) ↔ noNL a ∧ noNL b :=
  List.forall_mem_append

theorem noNL_cons {c : Char} {cs : List Char} :
    noNL (c :: cs) ↔ c ≠ '\n' ∧ noNL cs :=
  List.forall_mem_cons

theorem digitChar_ne_newline (n : Nat) : digitChar n ≠ '\n' := by
  unfold digitChar; split <;> decide

theorem hexChar_ne_newline (n : Nat) : hexChar n ≠ '\n' := by
  unfold hexChar; split <;> decide

theorem natDigits_noNL (n : Nat) : noNL (natDigits n) := by
  induction n using natDigits.induct with
  | case1 n h =>
    unfold natDigits
    rw [dif_pos h, noNL_cons]
    exact ⟨digitChar_ne_newline n, by decide⟩
  | case2 n h ih =>
    unfold natDigits
    rw [dif_neg h, noNL_append, noNL_cons]
    exact ⟨ih, digitChar_ne_newline _, by decide⟩

theorem intRepr_noNL (n : Int) : noNL (intRepr n) := by
  unfold intRepr
  split
  · rw [noNL_cons]
    exact ⟨by decide, natDigits_noNL _⟩
  · exact natDigits_noNL _

theorem escapeChar_noNL (c : Char) : noNL (escapeChar c) := by
  unfold escapeChar
  split_ifs with h1 h2 h3 h4 h5 h6 h7 h8
  · decide
  · decide
  · decide
  · decide
  · decide
  · decide
  · decide
  · simp only [noNL_cons]
    exact ⟨by decide, by decide, by decide, by decide, hexChar_ne_newline _,
      hexChar_ne_newline _, by decide⟩
  · rw [noNL_cons]
    exact ⟨h3, by decide⟩

theorem escapeString_noNL (cs : List Char) : noNL (escapeString cs) := by
  intro c hc
  rw [escapeString, List.mem_flatMap] at hc
  obtain ⟨a, _, ha⟩ := hc
  exact escapeChar_noNL a c ha

theorem dumpString_noNL (s : String) : noNL (dumpString s) := by
  rw [dumpString]
  simp only [noNL_append, noNL_cons, and_assoc]
  exact ⟨by decide, escapeString_noNL _, by decide⟩

theorem dumps_noNL (j : Json) : noNL (dumps j) := by
  refine dumps.induct (fun j => noNL (dumps j)) (fun kvs => noNL (dumpsObj kvs))
    (fun xs => noNL (dumpsArr xs)) ?_ ?_ ?_ ?_ ?_ ?_ ?_ ?_ ?_ ?_ ?_ ?_ ?_ j
  · simp only [dumps]
    decide
  · simp only [dumps]
    decide
  · intro b h
    simp only [Bool.not_eq_true] at h
    subst h
    simp only [dumps]
    decide
  · intro n
    simp only [dumps]
    exact intRepr_noNL n
  · intro s
    simp only [dumps]
    exact dumpString_noNL s
  · intro xs ih
    simp only [dumps, noNL_append, noNL_cons, and_assoc]
    exact ⟨by decide, ih, by decide⟩
  · intro kvs ih
    simp only [dumps, noNL_append, noNL_cons, and_assoc]
    exact ⟨by decide, ih, by decide⟩
  · simp only [dumpsArr]
    decide
  · intro x ih
    simpa only [dumpsArr] using ih
  · intro x y xs ih1 ih2
    simp only [dumpsArr, noNL_append, noNL_cons, and_assoc]
    exact ⟨ih1, by decide, by decide, ih2⟩
  · simp only [dumpsObj]
    decide
  · intro k v ih
    simp only [dumpsObj, noNL_append, noNL_cons, and_assoc]
    exact ⟨dumpString_noNL k, by decide, by decide, ih⟩
  · intro k v m kvs ih1 ih2
    simp only [dumpsObj, noNL_append, noNL_cons, and_assoc]
    exact ⟨dumpString_noNL k, by decide, by decide, ih1, by decide, by decide, ih2⟩

/-! ## Helper lemmas: the converter's output -/

theorem mapM_makeRecord (data : List Json)
    (h : ∀ item ∈ data, ∃ kvs, item = Json.obj kvs) :
    data.mapM makeRecord = some (data.map (fun item => recordOf (objMembers item))) := by
  induction data with
  | nil => rfl
  | cons x xs ih =>
    obtain ⟨kvs, hk⟩ := h x (List.mem_cons_self x xs)
    subst hk
    rw [List.mapM_cons, ih (fun i hi => h i (List.mem_cons_of_mem _ hi))]
    rfl

theorem count_terminated_lines (lines : List (List Char)) (h : ∀ l ∈ lines, noNL l) :
    ((lines.map (· ++ ['\n'])).flatten).count '\n' = lines.length := by
  induction lines with
  | nil => rfl
  | cons l ls ih =>
    simp only [List.map_cons, List.flatten_cons, List.count_append, List.length_cons]
    rw [ih (fun x hx => h x (List.mem_cons_of_mem _ hx))]
    have hz : l.count '\n' = 0 :=
      List.count_eq_zero.mpr (fun hc => (h l (List.mem_cons_self l ls)) '\n' hc rfl)
    simp [hz]
    omega

/-! ## Helper lemmas: parsing an emitted line recovers the record -/

theorem skipSpaces_cons_ne {c : Char} (hc : c ≠ ' ') (r : List Char) :
    skipSpaces (c :: r) = c :: r := by
  rw [skipSpaces, if_neg hc]

theorem skipSpaces_cons_space (r : List Char) :
    skipSpaces (' ' :: r) = skipSpaces r := by
  rw [skipSpaces, if_pos rfl]

theorem fromHex_hexChar {n : Nat} (h : n < 16) : fromHex (hexChar n) = some n := by
  interval_cases n <;> rfl

theorem parseStringBody_escapeChar (c : Char) (t : List Char) :
    parseStringBody (escapeChar c ++ t) =
      (parseStringBody t).map (fun p => (c :: p.1, p.2)) := by
  unfold escapeChar
  split_ifs with h1 h2 h3 h4 h5 h6 h7 h8
  · subst h1
    simp only [List.cons_append, List.nil_append]
    rw [parseStringBody.eq_def]
    simp
  · subst h2
    simp only [List.cons_append, List.nil_append]
    rw [parseStringBody.eq_def]
    simp
  · subst h3
    simp only [List.cons_append, List.nil_append]
    rw [parseStringBody.eq_def]
    simp
  · subst h4
    simp only [List.cons_append, List.nil_append]
    rw [parseStringBody.eq_def]
    simp
  · subst h5
    simp only [List.cons_append, List.nil_append]
    rw [parseStringBody.eq_def]
    simp
  · subst h6
    simp only [List.cons_append, List.nil_append]
    rw [parseStringBody.eq_def]
    simp
  · subst h7
    simp only [List.cons_append, List.nil_append]
    rw [parseStringBody.eq_def]
    simp
  · have hhi : c.toNat / 16 < 16 := by omega
    have hlo : c.toNat % 16 < 16 := by omega
    simp only [List.cons_append, List.nil_append]
    rw [parseStringBody.eq_def]
    simp only [Char.reduceEq, reduceIte, fromHex_hexChar hhi, fromHex_hexChar hlo]
    have h0 : fromHex '0' = some 0 := rfl
    rw [h0]
    dsimp only
    have harith : ((0 * 16 + 0) * 16 + c.toNat / 16) * 16 + c.toNat % 16 = c.toNat := by
      omega
    rw [harith, if_pos (show c.toNat < 55296 by omega), Char.ofNat_toNat]
  · simp only [List.cons_append, List.nil_append]
    rw [parseStringBody.eq_def]
    dsimp only
    rw [if_neg h1, if_neg h2]

theorem parseStringBody_escapeString (s t : List Char) :
    parseStringBody (escapeString s ++ '"' :: t) = some (s, t) := by
  induction s with
  | nil =>
    show parseStringBody ('"' :: t) = some ([], t)
    rw [parseStringBody.eq_def]
    simp
  | cons c s ih =>
    rw [escapeString, List.flatMap_cons, List.append_assoc,
      parseStringBody_escapeChar, ← escapeString, ih]
    rfl

theorem skipSpaces_membEnc (k v t : List Char) :
    skipSpaces (membEnc k v t) = membEnc k v t := by
  rw [membEnc]
  exact skipSpaces_cons_ne (by decide) _

theorem parseMember_membEnc {cs k v t : List Char}
    (hcs : skipSpaces cs = membEnc k v t) :
    parseMember cs = some ((k, v), t) := by
  rw [parseMember.eq_def, hcs, membEnc]
  dsimp only
  rw [if_pos rfl, parseStringBody_escapeString]
  dsimp only
  rw [skipSpaces_cons_ne (by decide)]
  dsimp only
  rw [if_pos rfl, skipSpaces_cons_space, skipSpaces_cons_ne (by decide)]
  dsimp only
  rw [if_pos rfl, parseStringBody_escapeString]

theorem parseMembers_step (m : Nat) {cs k v next : List Char}
    (hcs : skipSpaces cs = membEnc k v (',' :: ' ' :: next)) :
    parseMembers (m + 1) cs =
      match parseMembers m (' ' :: next) with
      | some (kvs, r2) => some ((k, v) :: kvs, r2)
      | none => none := by
  rw [parseMembers.eq_def]
  dsimp only
  rw [parseMember_membEnc hcs]
  dsimp only
  rw [skipSpaces_cons_ne (by decide)]
  dsimp only
  rw [if_neg (by decide), if_pos rfl]

theorem parseMembers_last (m : Nat) {cs k v : List Char}
    (hcs : skipSpaces cs = membEnc k v ['}']) :
    parseMembers (m + 1) cs = some ([(k, v)], []) := by
  rw [parseMembers.eq_def]
  dsimp only
  rw [parseMember_membEnc hcs]
  dsimp only
  rw [skipSpaces_cons_ne (by decide)]
  dsimp only
  rw [if_pos rfl]

theorem parseMembers_three (m : Nat) (k1 v1 k2 v2 k3 v3 : List Char) :
    parseMembers (m + 3)
      (membEnc k1 v1 (',' :: ' ' ::
        membEnc k2 v2 (',' :: ' ' :: membEnc k3 v3 ['}']))) =
      some ([(k1, v1), (k2, v2), (k3, v3)], []) := by
  have hstep1 := parseMembers_step (m + 2) (skipSpaces_membEnc k1 v1
    (',' :: ' ' :: membEnc k2 v2 (',' :: ' ' :: membEnc k3 v3 ['}'])))
  have hskip2 : skipSpaces (' ' :: membEnc k2 v2 (',' :: ' ' :: membEnc k3 v3 ['}'])) =
      membEnc k2 v2 (',' :: ' ' :: membEnc k3 v3 ['}']) := by
    rw [skipSpaces_cons_space, skipSpaces_membEnc]
  have hstep2 := parseMembers_step (m + 1) hskip2
  have hskip3 : skipSpaces (' ' :: membEnc k3 v3 ['}']) = membEnc k3 v3 ['}'] := by
    rw [skipSpaces_cons_space, skipSpaces_membEnc]
  have hstep3 := parseMembers_last m hskip3
  rw [show m + 3 = m + 2 + 1 by omega] at *
  rw [hstep1, hstep2, hstep3]

theorem dumps_record_shape (q r c : String) :
    dumps (Json.obj [("query", .str q), ("response", .str r), ("context", .str c)]) =
      '{' :: membEnc "query".data q.data (',' :: ' ' ::
        membEnc "response".data r.data (',' :: ' ' ::
          membEnc "context".data c.data ['}'])) := by
  simp only [dumps, dumpsObj, dumpString, membEnc, List.append_assoc, List.cons_append,
    List.singleton_append, List.nil_append]

theorem parseLine_record (q r c : String) :
    parseLine (dumps (Json.obj [("query", .str q), ("response", .str r), ("context", .str c)])) =
      some [("query", q), ("response", r), ("context", c)] := by
  rw [dumps_record_shape, parseLine.eq_def, skipSpaces_cons_ne (by decide)]
  dsimp only
  rw [if_pos rfl, skipSpaces_membEnc, membEnc]
  dsimp only
  rw [if_neg (by decide)]
  obtain ⟨m, hm⟩ : ∃ m,
      ('{' :: membEnc "query".data q.data (',' :: ' ' ::
        membEnc "response".data r.data (',' :: ' ' ::
          membEnc "context".data c.data ['}']))).length + 1 = m + 3 := by
    refine ⟨(membEnc "query".data q.data (',' :: ' ' ::
        membEnc "response".data r.data (',' :: ' ' ::
          membEnc "context".data c.data ['}']))).length - 1, ?_⟩
    rw [membEnc]
    simp only [List.length_cons]
    omega
  rw [← membEnc, hm, parseMembers_three]
  dsimp only
  rfl

theorem getField_wf {kvs : List (String × Json)} {key : String}
    (h : (match kvs.lookup key with
          | none => true
          | some (.str _) => true
          | some _ => false) = true) :
    Json.getField kvs key (.str "") = .str (strField kvs key) := by
  rw [Json.getField, strField]
  cases hl : kvs.lookup key with
  | none => rfl
  | some v =>
    rw [hl] at h
    cases v <;> simp_all

theorem recordOf_wf {kvs : List (String × Json)} (h : wfItem (.obj kvs) = true) :
    recordOf kvs = .obj [("query", .str (strField kvs "query")),
                         ("response", .str (strField kvs "response")),
                         ("context", .str (strField kvs "context"))] := by
  rw [wfItem] at h
  simp only [List.all_cons, List.all_nil, Bool.and_eq_true, Bool.and_true] at h
  obtain ⟨hq, hr, hc⟩ := h
  rw [recordOf, getField_wf hq, getField_wf hr, getField_wf hc]

/-! ## Claims about the format converter -/

/-- **C1.** For an input that is a JSON array of objects, the converter
emits exactly one line per array element, in input order; each line is
the serialization of a JSON object whose key list is exactly
`query`, `response`, `context`, and contains no newline character; the
file contents contain exactly one newline per element. -/
theorem c1_one_line_per_element (data : List Json)
    (h : ∀ item ∈ data, ∃ kvs, item = Json.obj kvs) :
    recordLines data =
      some (data.map (fun item => dumps (recordOf (objMembers item)))) ∧
    prepare_data data =
      some ((data.map (fun item => dumps (recordOf (objMembers item)) ++ ['\n'])).flatten) ∧
    (data.map (fun item => dumps (recordOf (objMembers item)))).length = data.length ∧
    (∀ i, i < data.length → ∃ kvs,
      data[i]? = some (Json.obj kvs) ∧
      (data.map (fun item => dumps (recordOf (objMembers item))))[i]? =
        some (dumps (recordOf kvs)) ∧
      (recordOf kvs).keys = ["query", "response", "context"] ∧
      noNL (dumps (recordOf kvs))) ∧
    ((data.map (fun item => dumps (recordOf (objMembers item)) ++ ['\n'])).flatten).count '\n' =
      data.length := by
  have hrl : recordLines data =
      some (data.map (fun item => dumps (recordOf (objMembers item)))) := by
    rw [recordLines, mapM_makeRecord data h]
    simp [List.map_map]
  refine ⟨hrl, ?_, by simp, ?_, ?_⟩
  · rw [prepare_data, hrl]
    simp [List.map_map]
    rfl
  · intro i hi
    obtain ⟨kvs, hk⟩ := h data[i] (List.getElem_mem hi)
    refine ⟨kvs, ?_, ?_, rfl, dumps_noNL _⟩
    · rw [List.getElem?_eq_getElem hi, hk]
    · rw [List.getElem?_map, List.getElem?_eq_getElem hi, hk]
      rfl
  · rw [show (data.map (fun item => dumps (recordOf (objMembers item)) ++ ['\n'])) =
        ((data.map (fun item => dumps (recordOf (objMembers item)))).map (· ++ ['\n'])) by
        simp [List.map_map]]
    rw [count_terminated_lines]
    · simp
    · intro l hl
      rw [List.mem_map] at hl
      obtain ⟨item, -, hitem⟩ := hl
      exact hitem ▸ dumps_noNL _

/-- Witness for C1: the spec's scenario input
`[{"query":"Q1","response":"R1"}]` yields exactly one line. -/
theorem c1_one_line_per_element_witness :
    recordLines [Json.obj [("query", Json.str "Q1"), ("response", Json.str "R1")]] =
      some ([Json.obj [("query", Json.str "Q1"), ("response", Json.str "R1")]].map
        (fun item => dumps (recordOf (objMembers item)))) :=
  (c1_one_line_per_element [Json.obj [("query", Json.str "Q1"), ("response", Json.str "R1")]]
    (by
      intro item hitem
      rw [List.mem_singleton] at hitem
      exact ⟨_, hitem⟩)).1

/-- **C4.** For each of the three fields `query` / `response` /
`context`: a field absent on the input element becomes `""` in the
emitted record, and a present field keeps the element's value. -/
theorem c4_default_fill (kvs : List (String × Json)) (key : String)
    (hkey : key ∈ (["query", "response", "context"] : List String)) :
    (kvs.lookup key = none →
      (objMembers (recordOf kvs)).lookup key = some (.str "")) ∧
    (∀ v, kvs.lookup key = some v →
      (objMembers (recordOf kvs)).lookup key = some v) := by
  refine ⟨?_, ?_⟩ <;> fin_cases hkey <;> intro h
  · simp [recordOf, objMembers, List.lookup, Json.getField, h]
  · simp [recordOf, objMembers, List.lookup, Json.getField, h]
  · simp [recordOf, objMembers, List.lookup, Json.getField, h]
  · intro hv
    simp [recordOf, objMembers, List.lookup, Json.getField, hv]
  · intro hv
    simp [recordOf, objMembers, List.lookup, Json.getField, hv]
  · intro hv
    simp [recordOf, objMembers, List.lookup, Json.getField, hv]

/-- Witness for C4: on `{"response": "R"}` the absent `query` field
becomes `""`; on `{"query": "Q"}` the present value is kept. -/
theorem c4_default_fill_witness :
    (objMembers (recordOf [("response", Json.str "R")])).lookup "query" =
      some (.str "") ∧
    (objMembers (recordOf [("query", Json.str "Q")])).lookup "query" =
      some (.str "Q") :=
  ⟨(c4_default_fill [("response", Json.str "R")] "query" (by decide)).1 rfl,
   (c4_default_fill [("query", Json.str "Q")] "query" (by decide)).2 (Json.str "Q") rfl⟩

/-- **C5.** Round-trip: for a well-formed input array (each element an
object whose three relevant fields, where present, are strings — §6 of
the spec), parsing each emitted line back as JSON yields exactly the
three fields `query` / `response` / `context`, whose values are the
original field values (or `""` where a field was absent).  No data loss
or corruption. -/
theorem c5_round_trip (data : List Json)
    (h : ∀ item ∈ data, wfItem item = true) :
    recordLines data =
      some (data.map (fun item => dumps (recordOf (objMembers item)))) ∧
    ∀ item ∈ data,
      parseLine (dumps (recordOf (objMembers item))) =
        some [("query", strField (objMembers item) "query"),
              ("response", strField (objMembers item) "response"),
              ("context", strField (objMembers item) "context")] ∧
      ∀ key ∈ (["query", "response", "context"] : List String),
        ((objMembers item).lookup key = none → strField (objMembers item) key = "") ∧
        (∀ s, (objMembers item).lookup key = some (.str s) →
          strField (objMembers item) key = s) := by
  have hobj : ∀ item ∈ data, ∃ kvs, item = Json.obj kvs := by
    intro item hitem
    have hw := h item hitem
    cases item <;> simp [wfItem] at hw
    exact ⟨_, rfl⟩
  constructor
  · rw [recordLines, mapM_makeRecord data hobj]
    simp [List.map_map]
  · intro item hitem
    have hw := h item hitem
    obtain ⟨kvs, rfl⟩ := hobj item hitem
    refine ⟨?_, ?_⟩
    · rw [objMembers, recordOf_wf hw, parseLine_record]
    · intro key _hkey
      constructor
      · intro hnone
        rw [strField, hnone]
      · intro s hsome
        rw [strField, hsome]

/-- Witness for C5: the spec's scenario input
`[{"query":"Q1","response":"R1"}]` — the emitted line parses back to
`{"query": "Q1", "response": "R1", "context": ""}`. -/
theorem c5_round_trip_witness :
    parseLine (dumps (recordOf (objMembers
        (Json.obj [("query", Json.str "Q1"), ("response", Json.str "R1")])))) =
      some [("query", "Q1"), ("response", "R1"), ("context", "")] := by
  have hx := ((c5_round_trip [Json.obj [("query", Json.str "Q1"), ("response", Json.str "R1")]]
      (by decide)).2 (Json.obj [("query", Json.str "Q1"), ("response", Json.str "R1")])
      (List.mem_singleton.mpr rfl)).1
  exact hx

/-! ## Claims about the configuration selector -/

/-- **C2.** The configuration selector returns an Azure (backend-A)
configuration whenever `AZURE_OPENAI_ENDPOINT` is set — even if
`OPENAI_API_KEY` is also set; otherwise an OpenAI (backend-B)
configuration when `OPENAI_API_KEY` is set; otherwise it fails with a
configuration error.  Exactly one variant is constructed: the three
cases are exhaustive and mutually exclusive.  "Set" follows the
selector's own test, Python truthiness of `os.environ.get`, under which
an empty value counts as unset (see C10). -/
theorem c2_backend_precedence (env : Env) :
    (truthy (env "AZURE_OPENAI_ENDPOINT") = true →
      get_model_config env =
        .ok (.azure ((env "AZURE_OPENAI_ENDPOINT").getD "")
              ((env "AZURE_OPENAI_DEPLOYMENT").getD "gpt-4")
              (env "AZURE_OPENAI_API_KEY")
              ((env "AZURE_OPENAI_API_VERSION").getD "2024-02-15-preview"))) ∧
    (truthy (env "AZURE_OPENAI_ENDPOINT") = false →
      truthy (env "OPENAI_API_KEY") = true →
      get_model_config env =
        .ok (.openai ((env "OPENAI_MODEL").getD "gpt-4")
              ((env "OPENAI_API_KEY").getD ""))) ∧
    (truthy (env "AZURE_OPENAI_ENDPOINT") = false →
      truthy (env "OPENAI_API_KEY") = false →
      get_model_config env = .error noConfigMsg) := by
  unfold get_model_config
  refine ⟨fun h1 => ?_, fun h1 h2 => ?_, fun h1 h2 => ?_⟩ <;> simp [h1]
  · simp [*]
  · simp [*]

/-- Witness for C2: with both `AZURE_OPENAI_ENDPOINT` and
`OPENAI_API_KEY` set, the Azure configuration is selected. -/
theorem c2_backend_precedence_witness :
    get_model_config (fun k =>
        if k = "AZURE_OPENAI_ENDPOINT" then some "https://example.azure.com" else
        if k = "OPENAI_API_KEY" then some "sk-test" else none) =
      .ok (.azure "https://example.azure.com" "gpt-4" none "2024-02-15-preview") := by
  have h := (c2_backend_precedence (fun k =>
        if k = "AZURE_OPENAI_ENDPOINT" then some "https://example.azure.com" else
        if k = "OPENAI_API_KEY" then some "sk-test" else none)).1 (by decide)
  simpa using h

/-- **C8.** Defaults: with backend A selected, an unset
`AZURE_OPENAI_DEPLOYMENT` yields deployment `"gpt-4"` and an unset
`AZURE_OPENAI_API_VERSION` yields API version `"2024-02-15-preview"`;
with backend B selected, an unset `OPENAI_MODEL` yields model
`"gpt-4"`. -/
theorem c8_default_values (env : Env) :
    (truthy (env "AZURE_OPENAI_ENDPOINT") = true →
      env "AZURE_OPENAI_DEPLOYMENT" = none →
      ∃ e k v, get_model_config env = .ok (.azure e "gpt-4" k v)) ∧
    (truthy (env "AZURE_OPENAI_ENDPOINT") = true →
      env "AZURE_OPENAI_API_VERSION" = none →
      ∃ e d k, get_model_config env = .ok (.azure e d k "2024-02-15-preview")) ∧
    (truthy (env "AZURE_OPENAI_ENDPOINT") = false →
      truthy (env "OPENAI_API_KEY") = true →
      env "OPENAI_MODEL" = none →
      ∃ k, get_model_config env = .ok (.openai "gpt-4" k)) := by
  unfold get_model_config
  refine ⟨fun h1 h2 => ?_, fun h1 h2 => ?_, fun h1 h2 h3 => ?_⟩ <;> simp [*]

/-- Witness for C8: endpoint set, deployment and version unset. -/
theorem c8_default_values_witness :
    ∃ e k v,
      get_model_config (fun k =>
          if k = "AZURE_OPENAI_ENDPOINT" then some "https://example.azure.com"
          else none) = .ok (.azure e "gpt-4" k v) :=
  (c8_default_values (fun k =>
      if k = "AZURE_OPENAI_ENDPOINT" then some "https://example.azure.com"
      else none)).1 (by decide) (by decide)

/-- **C9.** Backend-A selection depends only on `AZURE_OPENAI_ENDPOINT`:
with the endpoint set but `AZURE_OPENAI_API_KEY` absent, the Azure
configuration is still returned, with `api_key = none`, and the
configuration error is raised iff both `AZURE_OPENAI_ENDPOINT` and
`OPENAI_API_KEY` are unset (as everywhere in the selector, an empty
value counts as unset). -/
theorem c9_azure_without_key (env : Env) :
    (truthy (env "AZURE_OPENAI_ENDPOINT") = true →
      env "AZURE_OPENAI_API_KEY" = none →
      get_model_config env =
        .ok (.azure ((env "AZURE_OPENAI_ENDPOINT").getD "")
              ((env "AZURE_OPENAI_DEPLOYMENT").getD "gpt-4")
              none
              ((env "AZURE_OPENAI_API_VERSION").getD "2024-02-15-preview"))) ∧
    ((∃ msg, get_model_config env = .error msg) ↔
      (truthy (env "AZURE_OPENAI_ENDPOINT") = false ∧
       truthy (env "OPENAI_API_KEY") = false)) := by
  unfold get_model_config
  constructor
  · intro h1 h2
    simp [h1, h2]
  · constructor
    · rintro ⟨msg, hmsg⟩
      by_cases h1 : truthy (env "AZURE_OPENAI_ENDPOINT") <;>
        by_cases h2 : truthy (env "OPENAI_API_KEY") <;> simp_all
    · rintro ⟨h1, h2⟩
      exact ⟨noConfigMsg, by simp [h1, h2]⟩

/-- Witness for C9: endpoint set, Azure key absent — backend A with a
missing key is returned. -/
theorem c9_azure_without_key_witness :
    get_model_config (fun k =>
        if k = "AZURE_OPENAI_ENDPOINT" then some "https://example.azure.com"
        else none) =
      .ok (.azure "https://example.azure.com" "gpt-4" none "2024-02-15-preview") := by
  have h := (c9_azure_without_key (fun k =>
      if k = "AZURE_OPENAI_ENDPOINT" then some "https://example.azure.com"
      else none)).1 (by decide) (by decide)
  simpa using h

/-- **C10.** A variable set to the empty string is treated as unset: an
empty `AZURE_OPENAI_ENDPOINT` never selects backend A, an empty
`OPENAI_API_KEY` never selects backend B, and with both empty the
selector raises the configuration error. -/
theorem c10_empty_is_unset (env : Env) :
    (env "AZURE_OPENAI_ENDPOINT" = some "" →
      ∀ e d k v, get_model_config env ≠ .ok (.azure e d k v)) ∧
    (env "OPENAI_API_KEY" = some "" →
      ∀ m k, get_model_config env ≠ .ok (.openai m k)) ∧
    (env "AZURE_OPENAI_ENDPOINT" = some "" → env "OPENAI_API_KEY" = some "" →
      get_model_config env = .error noConfigMsg) := by
  have ht : truthy (some "") = false := by decide
  unfold get_model_config
  refine ⟨fun h1 e d k v => ?_, fun h2 m k => ?_, fun h1 h2 => ?_⟩
  · rw [h1, ht]
    split
    · simp_all
    · split <;> simp
  · by_cases hA : truthy (env "AZURE_OPENAI_ENDPOINT") = true
    · simp [hA]
    · simp only [Bool.not_eq_true] at hA
      rw [h2, hA, ht]
      simp
  · rw [h1, h2, ht]
    simp

/-- Witness for C10: both selector variables empty — the configuration
error is raised. -/
theorem c10_empty_is_unset_witness :
    get_model_config (fun k =>
        if k = "AZURE_OPENAI_ENDPOINT" then some "" else
        if k = "OPENAI_API_KEY" then some "" else none) =
      .error noConfigMsg :=
  (c10_empty_is_unset (fun k =>
      if k = "AZURE_OPENAI_ENDPOINT" then some "" else
      if k = "OPENAI_API_KEY" then some "" else none)).2.2 (by decide) (by decide)

/-! ## Claims about the driver (`main`) -/

/-- **C3.** Any run of `main` that reaches the creation of the
temporary JSONL file ends with the temporary file removed — on success
as well as when the conversion or the external evaluation raises
(the `finally` block removes it in every case). -/
theorem c3_temp_file_cleanup (env : Env) (w : ExtWorld)
    (_h : (main env w).tempCreated = true) :
    (main env w).tempExistsAtEnd = false := by
  unfold main
  repeat' split
  all_goals rfl

/-- Witness for C3: a configured run whose external evaluation raises
still ends with the temporary file removed. -/
theorem c3_temp_file_cleanup_witness :
    (main (fun k => if k = "OPENAI_API_KEY" then some "sk-test" else none)
          { inputFileExists := true, prepareRaises := false, evalRaises := true }).tempCreated = true ∧
    (main (fun k => if k = "OPENAI_API_KEY" then some "sk-test" else none)
          { inputFileExists := true, prepareRaises := false, evalRaises := true }).tempExistsAtEnd = false :=
  ⟨by decide,
   c3_temp_file_cleanup (fun k => if k = "OPENAI_API_KEY" then some "sk-test" else none)
     { inputFileExists := true, prepareRaises := false, evalRaises := true }
     (by decide)⟩

/-- **C6.** With neither `AZURE_OPENAI_ENDPOINT` nor `OPENAI_API_KEY`
set (and the input file present, so the run reaches configuration
selection), `get_model_config` raises the configuration error; `main`
catches it, prints the error and the remediation hint, and returns
normally — no temporary file, no output file, no propagated
exception. -/
theorem c6_no_credentials (env : Env) (w : ExtWorld)
    (hA : env "AZURE_OPENAI_ENDPOINT" = none)
    (hB : env "OPENAI_API_KEY" = none)
    (hin : w.inputFileExists = true) :
    get_model_config env = .error noConfigMsg ∧
    main env w =
      { printed := ["Error: " ++ noConfigMsg, configHintMsg],
        configResult := some (.error noConfigMsg),
        tempCreated := false, tempExistsAtEnd := false,
        outputWritten := false, raised := false } := by
  have hcfg : get_model_config env = .error noConfigMsg := by
    unfold get_model_config
    simp [hA, hB, truthy]
  refine ⟨hcfg, ?_⟩
  unfold main
  rw [hin]
  simp [hcfg]

/-- Witness for C6: the empty environment with the input file present. -/
theorem c6_no_credentials_witness :
    main (fun _ => none)
        { inputFileExists := true, prepareRaises := false, evalRaises := false } =
      { printed := ["Error: " ++ noConfigMsg, configHintMsg],
        configResult := some (.error noConfigMsg),
        tempCreated := false, tempExistsAtEnd := false,
        outputWritten := false, raised := false } :=
  (c6_no_credentials (fun _ => none)
      { inputFileExists := true, prepareRaises := false, evalRaises := false }
      rfl rfl rfl).2

/-- **C7.** When `test_dataset.json` does not exist, `main` prints the
diagnostic naming the upstream step (`collect_responses.ts`) and
returns without raising and without side effects: configuration
selection is never attempted, and neither the temporary file nor the
output file is created. -/
theorem c7_missing_input (env : Env) (w : ExtWorld)
    (hin : w.inputFileExists = false) :
    main env w =
      { printed := [missingInputMsg], configResult := none,
        tempCreated := false, tempExistsAtEnd := false,
        outputWritten := false, raised := false } := by
  unfold main
  rw [hin]
  rfl

/-- Witness for C7: missing input file, everything else well-behaved. -/
theorem c7_missing_input_witness :
    main (fun _ => some "x")
        { inputFileExists := false, prepareRaises := false, evalRaises := false } =
      { printed := [missingInputMsg], configResult := none,
        tempCreated := false, tempExistsAtEnd := false,
        outputWritten := false, raised := false } :=
  c7_missing_input (fun _ => some "x")
    { inputFileExists := false, prepareRaises := false, evalRaises := false } rfl

end Evaluate
